import Mathlib

/-!
Verification development for the DIT-Monitor-Pro telemetry and alerting core.

The definitions below are a shallow embedding of the TypeScript source:
utility values are rationals (the source uses JS numbers and only compares,
adds and clamps them), the `Math.random()` calls are modelled as explicit
oracle inputs, and wall-clock reads (`Date.now()`) are explicit `now`
parameters.  List state (device histories, active alerts, the dismissal
set) is modelled with Lean lists; the JS `Set` of dismissed alert ids is a
list used only through membership.
-/

namespace DITMonitor

/-- Device status enum from `types.ts`. -/
inductive DeviceStatus where
  | ONLINE
  | OFFLINE
  | WARNING
  | ERROR
deriving DecidableEq, Repr

/-- Device type union from `types.ts`. -/
inductive DeviceType where
  | SERVER
  | ROUTER
  | DATABASE
  | IOT
deriving DecidableEq, Repr

/-- `MetricPoint` from `types.ts`. -/
structure MetricPoint where
  timestamp : ℚ
  cpu : ℚ
  ram : ℚ
  disk : ℚ
  network : ℚ
deriving DecidableEq, Repr

/-- `Device` from `types.ts`. -/
structure Device where
  id : String
  name : String
  type : DeviceType
  status : DeviceStatus
  location : String
  ip : String
  metrics : List MetricPoint
  lastUpdate : ℚ
deriving DecidableEq, Repr

/-- The alert metric kind (`'CPU' | 'RAM'` in `types.ts`). -/
inductive MetricType where
  | CPU
  | RAM
deriving DecidableEq, Repr

/-- `Math.min(100, Math.max(0, x))` as used by `generateMetricPoint`. -/
def clamp (x : ℚ) : ℚ := min 100 (max 0 x)

/-- The random inputs consumed by one `generateMetricPoint` call: one
`Math.random()` draw per drift call (`dc`, `dr`, `dd`, `dn`) and one per
seeding expression (`sc`, `sr`, `sd`, `sn`); each models a value in `[0,1)`. -/
structure GenRand where
  sc : ℚ
  sr : ℚ
  sd : ℚ
  sn : ℚ
  dc : ℚ
  dr : ℚ
  dd : ℚ
  dn : ℚ
deriving DecidableEq, Repr

/-- `const drift = () => (Math.random() - 0.5) * 10`, applied to a draw. -/
def driftOf (r : ℚ) : ℚ := (r - 1/2) * 10

/-- `generateMetricPoint(prev?)` from `utils/mockData`: each dimension is
`clamp((prev?.dim ?? seed) + drift())`, with per-dimension seed ranges
`cpu ∈ r*40+20`, `ram ∈ r*50+30`, `disk ∈ r*10+60`, `network ∈ r*20+10`,
and `timestamp = Date.now()` (the explicit `now`). -/
def generateMetricPoint (now : ℚ) (g : GenRand) (prev : Option MetricPoint) : MetricPoint :=
  { timestamp := now
    cpu := clamp ((match prev with | some p => p.cpu | none => g.sc * 40 + 20) + driftOf g.dc)
    ram := clamp ((match prev with | some p => p.ram | none => g.sr * 50 + 30) + driftOf g.dr)
    disk := clamp ((match prev with | some p => p.disk | none => g.sd * 10 + 60) + driftOf g.dd)
    network := clamp ((match prev with | some p => p.network | none => g.sn * 20 + 10) + driftOf g.dn) }

theorem clamp_nonneg (x : ℚ) : 0 ≤ clamp x :=
  le_min (by norm_num) (le_max_left 0 x)

theorem clamp_le_100 (x : ℚ) : clamp x ≤ 100 :=
  min_le_left 100 (max 0 x)

/-- Claim C6: every generated sample — whether seeded with no previous
sample or produced from any previous sample and any random drift — has each
of its four dimensions cpu, ram, disk, network in the interval `[0, 100]`. -/
theorem generateMetricPoint_clamped (now : ℚ) (g : GenRand) (prev : Option MetricPoint) :
    (0 ≤ (generateMetricPoint now g prev).cpu ∧ (generateMetricPoint now g prev).cpu ≤ 100) ∧
    (0 ≤ (generateMetricPoint now g prev).ram ∧ (generateMetricPoint now g prev).ram ≤ 100) ∧
    (0 ≤ (generateMetricPoint now g prev).disk ∧ (generateMetricPoint now g prev).disk ≤ 100) ∧
    (0 ≤ (generateMetricPoint now g prev).network ∧ (generateMetricPoint now g prev).network ≤ 100) :=
  ⟨⟨clamp_nonneg _, clamp_le_100 _⟩, ⟨clamp_nonneg _, clamp_le_100 _⟩,
   ⟨clamp_nonneg _, clamp_le_100 _⟩, ⟨clamp_nonneg _, clamp_le_100 _⟩⟩

/-!  Alert evaluation (the alert `useEffect` in `App`, lines 42-97).  -/

/-- The composite identity of an alert condition.  In the source the alert
id is the template string
`` ${device.id}-CPU-${cpuThreshold}-${alertDuration} `` (resp. `RAM`); its
interpolated components are exactly the four fields below, and on the
domains the program uses (device ids of the form `dev-i`, which contain
neither `-CPU-` nor `-RAM-`) the concatenation is injective in them, so the
key is modelled as the structured tuple. -/
structure AlertId where
  deviceId : String
  metric : MetricType
  threshold : ℚ
  duration : ℚ
deriving DecidableEq, Repr

/-- `Alert` from `types.ts`, with the id kept structured (see `AlertId`). -/
structure Alert where
  id : AlertId
  deviceId : String
  deviceName : String
  metricType : MetricType
  value : ℚ
  timestamp : ℚ
deriving DecidableEq, Repr

/-- `Math.max(1, Math.ceil(alertDuration / 3))` (line 46); data points are
gathered every 3 seconds. -/
def pointsNeeded (alertDuration : ℚ) : ℕ :=
  max 1 (Int.toNat ⌈alertDuration / 3⌉)

/-- Default metric point standing for the out-of-bounds JS index
`metrics[length-1]` on an empty array; the ``length < pointsNeeded`` guard
(with `pointsNeeded ≥ 1`) makes it unreachable. -/
def mpDefault : MetricPoint := ⟨0, 0, 0, 0, 0⟩

/-- The body of the per-device alert evaluation (lines 49-88): skip a
device with insufficient history, take the trailing `pointsNeeded` samples
(`slice(-pointsNeeded)` = `drop (length - pointsNeeded)`), require every
sample of the window strictly above the threshold, and emit an alert
carrying the latest sample's value unless the alert id was dismissed.  The
CPU alert is pushed before the RAM alert, as in the source. -/
def evaluateDevice (cpuThreshold ramThreshold alertDuration : ℚ)
    (dismissedAlertIds : List AlertId) (now : ℚ) (device : Device) : List Alert :=
  let pn := pointsNeeded alertDuration
  if device.metrics.length < pn then []
  else
    let recentMetrics := device.metrics.drop (device.metrics.length - pn)
    let latestMetric := device.metrics.getLastD mpDefault
    let cpuExceeded := recentMetrics.all fun m => decide (cpuThreshold < m.cpu)
    let ramExceeded := recentMetrics.all fun m => decide (ramThreshold < m.ram)
    (if cpuExceeded then
      if (⟨device.id, MetricType.CPU, cpuThreshold, alertDuration⟩ : AlertId) ∈ dismissedAlertIds
        then []
      else
        [{ id := ⟨device.id, MetricType.CPU, cpuThreshold, alertDuration⟩
           deviceId := device.id
           deviceName := device.name
           metricType := MetricType.CPU
           value := latestMetric.cpu
           timestamp := now }]
      else []) ++
    (if ramExceeded then
      if (⟨device.id, MetricType.RAM, ramThreshold, alertDuration⟩ : AlertId) ∈ dismissedAlertIds
        then []
      else
        [{ id := ⟨device.id, MetricType.RAM, ramThreshold, alertDuration⟩
           deviceId := device.id
           deviceName := device.name
           metricType := MetricType.RAM
           value := latestMetric.ram
           timestamp := now }]
      else [])

/-- The full evaluation pass over the fleet (`devices.forEach`, collecting
`newAlerts` in device order). -/
def evaluate (cpuThreshold ramThreshold alertDuration : ℚ)
    (dismissedAlertIds : List AlertId) (now : ℚ) (devices : List Device) : List Alert :=
  devices.flatMap (evaluateDevice cpuThreshold ramThreshold alertDuration dismissedAlertIds now)

/-- The merge in `setActiveAlerts` (lines 91-96): keep `prev` as is and
append only those new alerts whose id is not already present.  (The early
`return prev` when nothing is new returns the same list value.) -/
def reconcile (prev newAlerts : List Alert) : List Alert :=
  let existingIds := prev.map fun a => a.id
  let filteredNew := newAlerts.filter fun a => decide (a.id ∉ existingIds)
  prev ++ filteredNew

/-- The alert-system state: the `activeAlerts` list and the
`dismissedAlertIds` set (modelled as a list used through membership). -/
structure AlertState where
  activeAlerts : List Alert
  dismissedAlertIds : List AlertId
deriving DecidableEq, Repr

/-- `handleDismissAlert` (lines 99-102): add the id to the dismissal set
and drop every active alert with that id. -/
def handleDismissAlert (st : AlertState) (k : AlertId) : AlertState :=
  { activeAlerts := st.activeAlerts.filter fun a => decide (a.id ≠ k)
    dismissedAlertIds := k :: st.dismissedAlertIds }

/-- One run of the alert `useEffect` for a device snapshot: evaluate under
the current dismissal set and merge into the active set; the dismissal set
is not changed by evaluation. -/
def tick (cpuThreshold ramThreshold alertDuration : ℚ) (devices : List Device)
    (now : ℚ) (st : AlertState) : AlertState :=
  { activeAlerts :=
      reconcile st.activeAlerts
        (evaluate cpuThreshold ramThreshold alertDuration st.dismissedAlertIds now devices)
    dismissedAlertIds := st.dismissedAlertIds }

/-- A sequence of evaluation ticks under a fixed threshold configuration,
each tick given its device snapshot and wall-clock time. -/
def ticksRun (cpuThreshold ramThreshold alertDuration : ℚ) :
    List (List Device × ℚ) → AlertState → AlertState
  | [], st => st
  | (ds, t) :: rest, st =>
      ticksRun cpuThreshold ramThreshold alertDuration rest
        (tick cpuThreshold ramThreshold alertDuration ds t st)

/-!  Threshold configuration (the three `useState` cells, lines 28-30, and
their `onChange` handlers, lines 214-243).  -/

/-- The operator-configurable thresholds held in component state. -/
structure ThresholdConfig where
  cpuThreshold : ℚ
  ramThreshold : ℚ
  alertDuration : ℚ
deriving DecidableEq, Repr

/-- The CPU threshold input handler: `setCpuThreshold(Number(e.target.value))`
applied to the parsed numeric value, with no validation. -/
def setCpuThreshold (c : ThresholdConfig) (v : ℚ) : ThresholdConfig :=
  { c with cpuThreshold := v }

/-- The RAM threshold input handler, likewise unvalidated. -/
def setRamThreshold (c : ThresholdConfig) (v : ℚ) : ThresholdConfig :=
  { c with ramThreshold := v }

/-- The duration input handler, likewise unvalidated. -/
def setAlertDuration (c : ThresholdConfig) (v : ℚ) : ThresholdConfig :=
  { c with alertDuration := v }

/-!  Fleet simulation (`utils/mockData`, lines 495-558).  -/

/-- `DEVICE_NAMES` from `utils/mockData`. -/
def DEVICE_NAMES : List String :=
  ["US-WEST-SRV-01", "EU-CENTRAL-DB-02", "AS-SOUTH-IOT-09", "US-EAST-RTR-04",
   "CLOUD-API-GW", "CACHE-REDIS-01", "NODE-WORKER-05", "LEGACY-MAINFRAME",
   "PROD-ELK-STACK", "MESSAGING-RABBIT", "STORAGE-SAN-01", "FIREWALL-PFE"]

/-- `LOCATIONS` from `utils/mockData`. -/
def LOCATIONS : List String :=
  ["San Francisco", "Frankfurt", "Mumbai", "New York", "Tokyo", "London"]

/-- The device-type candidates indexed by `Math.floor(Math.random() * 4)`. -/
def deviceTypeChoices : List DeviceType :=
  [DeviceType.SERVER, DeviceType.ROUTER, DeviceType.DATABASE, DeviceType.IOT]

/-- The random inputs consumed when one device is created: the type index
draw, the initial status draw, the location draw, the two IP octet draws,
and one `GenRand` per backfilled metric point. -/
structure DevInitRand where
  typeRoll : ℚ
  statusRoll : ℚ
  locRoll : ℚ
  ipRoll1 : ℚ
  ipRoll2 : ℚ
  gens : ℕ → GenRand

/-- The metric backfill loop of `createInitialDevices`: `k` further chained
applications of `generateMetricPoint`, consuming oracle draws from index
`j` upward, each point seeded from the previous one. -/
def genChain (now : ℚ) (g : ℕ → GenRand) : ℕ → ℕ → Option MetricPoint → List MetricPoint
  | _, 0, _ => []
  | j, Nat.succ k, prev =>
      let m := generateMetricPoint now (g j) prev
      m :: genChain now g (j + 1) k (some m)

/-- The body of the `createInitialDevices` map for index `i` (lines
515-535): name by `i % DEVICE_NAMES.length`, random type/location/IP,
status `WARNING` when the draw exceeds `0.8` else `ONLINE`, and a
20-sample chained metric backfill. -/
def createDevice (now : ℚ) (i : ℕ) (r : DevInitRand) : Device :=
  { id := "dev-" ++ toString i
    name := DEVICE_NAMES.getD (i % DEVICE_NAMES.length) ""
    type := deviceTypeChoices.getD (Int.toNat ⌊r.typeRoll * 4⌋) DeviceType.SERVER
    status := if 8/10 < r.statusRoll then DeviceStatus.WARNING else DeviceStatus.ONLINE
    location := LOCATIONS.getD (Int.toNat ⌊r.locRoll * 6⌋) ""
    ip := "192.168." ++ toString (Int.toNat ⌊r.ipRoll1 * 254⌋) ++ "." ++
      toString (Int.toNat ⌊r.ipRoll2 * 254⌋)
    metrics := genChain now r.gens 0 20 none
    lastUpdate := now }

/-- `createInitialDevices(count)` with the per-device random draws supplied
by the oracle `R`. -/
def createInitialDevices (now : ℚ) (R : ℕ → DevInitRand) (count : ℕ) : List Device :=
  (List.range count).map fun i => createDevice now i (R i)

/-- The status roll of `updateDevices` (lines 541-546), mirroring the
source's `if`/`else if` ladder exactly:
`roll > 0.98` yields `WARNING`; only otherwise are `roll > 0.995` (ERROR),
`roll > 0.999` (OFFLINE) and the recovery test `roll < 0.1 && status !==
ONLINE` reached. -/
def rollStatus (roll : ℚ) (s : DeviceStatus) : DeviceStatus :=
  if 98/100 < roll then DeviceStatus.WARNING
  else if 995/1000 < roll then DeviceStatus.ERROR
  else if 999/1000 < roll then DeviceStatus.OFFLINE
  else if roll < 1/10 ∧ s ≠ DeviceStatus.ONLINE then DeviceStatus.ONLINE
  else s

/-- The random inputs consumed when one device is advanced: the status
roll and the draws of the new metric point. -/
structure DevRand where
  roll : ℚ
  gen : GenRand

/-- The body of the `updateDevices` map (lines 539-557): roll the status,
generate one point seeded from the last history entry
(`metrics[length-1]`, `none` on an empty history), drop the oldest point
(`slice(1)`), append the new one, and stamp `lastUpdate`. -/
def updateDevice (now : ℚ) (r : DevRand) (d : Device) : Device :=
  { d with
    status := rollStatus r.roll d.status
    metrics := d.metrics.drop 1 ++ [generateMetricPoint now r.gen d.metrics.getLast?]
    lastUpdate := now }

/-- `devices.map(...)` with one fresh `DevRand` per device, supplied by an
oracle indexed by position starting at `j`. -/
def updateDevicesFrom (now : ℚ) (R : ℕ → DevRand) : ℕ → List Device → List Device
  | _, [] => []
  | j, d :: ds => updateDevice now (R j) d :: updateDevicesFrom now R (j + 1) ds

/-- `updateDevices(devices)` with explicit random oracle. -/
def updateDevices (now : ℚ) (R : ℕ → DevRand) (devices : List Device) : List Device :=
  updateDevicesFrom now R 0 devices

/-- `n` update ticks, the `n`-th using wall-clock `T n` and the per-device
oracle `O n`. -/
def advanceN (T : ℕ → ℚ) (O : ℕ → ℕ → DevRand) : ℕ → List Device → List Device
  | 0, ds => ds
  | Nat.succ n, ds => updateDevices (T n) (O n) (advanceN T O n ds)

/-!  General lemmas about the evaluator.  -/

theorem one_le_pointsNeeded (d : ℚ) : 1 ≤ pointsNeeded d :=
  le_max_left 1 _

theorem pointsNeeded_three : pointsNeeded 3 = 1 := by
  norm_num [pointsNeeded]

/-- The shape of `evaluateDevice` on a device with enough history. -/
theorem evaluateDevice_of_enough (cpuT ramT dur : ℚ) (dis : List AlertId) (now : ℚ) (d : Device)
    (h : pointsNeeded dur ≤ d.metrics.length) :
    evaluateDevice cpuT ramT dur dis now d =
      (if (d.metrics.drop (d.metrics.length - pointsNeeded dur)).all
            (fun m => decide (cpuT < m.cpu)) then
        if (⟨d.id, MetricType.CPU, cpuT, dur⟩ : AlertId) ∈ dis then []
        else
          [{ id := ⟨d.id, MetricType.CPU, cpuT, dur⟩
             deviceId := d.id
             deviceName := d.name
             metricType := MetricType.CPU
             value := (d.metrics.getLastD mpDefault).cpu
             timestamp := now }]
        else []) ++
      (if (d.metrics.drop (d.metrics.length - pointsNeeded dur)).all
            (fun m => decide (ramT < m.ram)) then
        if (⟨d.id, MetricType.RAM, ramT, dur⟩ : AlertId) ∈ dis then []
        else
          [{ id := ⟨d.id, MetricType.RAM, ramT, dur⟩
             deviceId := d.id
             deviceName := d.name
             metricType := MetricType.RAM
             value := (d.metrics.getLastD mpDefault).ram
             timestamp := now }]
        else []) := by
  simp only [evaluateDevice, if_neg (not_lt.mpr h)]

/-- Claim C1: for a device with at least `pointsNeeded` samples of history
(and whose CPU and RAM keys are not dismissed), the evaluator emits a CPU
condition exactly when every sample in the trailing window of the most
recent `pointsNeeded` samples has cpu strictly above the CPU threshold,
analogously for RAM, and every emitted condition carries the most recent
sample's value of its metric as its observed value. -/
theorem evaluateDevice_emits_iff (cpuT ramT dur now : ℚ) (dis : List AlertId) (d : Device)
    (hlen : pointsNeeded dur ≤ d.metrics.length)
    (hcpu : (⟨d.id, MetricType.CPU, cpuT, dur⟩ : AlertId) ∉ dis)
    (hram : (⟨d.id, MetricType.RAM, ramT, dur⟩ : AlertId) ∉ dis) :
    ((∃ a ∈ evaluateDevice cpuT ramT dur dis now d, a.metricType = MetricType.CPU) ↔
      ∀ m ∈ d.metrics.drop (d.metrics.length - pointsNeeded dur), cpuT < m.cpu) ∧
    ((∃ a ∈ evaluateDevice cpuT ramT dur dis now d, a.metricType = MetricType.RAM) ↔
      ∀ m ∈ d.metrics.drop (d.metrics.length - pointsNeeded dur), ramT < m.ram) ∧
    (∃ lm, d.metrics.getLast? = some lm ∧
      ∀ a ∈ evaluateDevice cpuT ramT dur dis now d,
        a.value = if a.metricType = MetricType.CPU then lm.cpu else lm.ram) := by
  have hne : d.metrics ≠ [] := by
    intro h0
    rw [h0] at hlen
    have := one_le_pointsNeeded dur
    simp at hlen
    omega
  have hlmD : d.metrics.getLastD mpDefault = d.metrics.getLast hne := by
    rw [List.getLastD_eq_getLast?, List.getLast?_eq_getLast _ hne, Option.getD_some]
  rw [evaluateDevice_of_enough cpuT ramT dur dis now d hlen]
  refine ⟨?_, ?_, d.metrics.getLast hne, List.getLast?_eq_getLast _ hne, ?_⟩ <;>
    by_cases hc : (d.metrics.drop (d.metrics.length - pointsNeeded dur)).all
        (fun m => decide (cpuT < m.cpu)) = true <;>
    by_cases hr : (d.metrics.drop (d.metrics.length - pointsNeeded dur)).all
        (fun m => decide (ramT < m.ram)) = true <;>
    simp_all [List.all_eq_true, hcpu, hram, hlmD] <;>
    aesop

/-- A concrete sample above a 90% CPU threshold. -/
def mp95 : MetricPoint := ⟨0, 95, 50, 50, 50⟩

/-- A concrete device with a one-sample history. -/
def dev95 : Device :=
  ⟨"dev-0", "US-WEST-SRV-01", DeviceType.SERVER, DeviceStatus.ONLINE,
   "San Francisco", "192.168.1.1", [mp95], 0⟩

theorem evaluateDevice_emits_iff_witness :
    (pointsNeeded 3 ≤ dev95.metrics.length ∧
     (⟨dev95.id, MetricType.CPU, 90, 3⟩ : AlertId) ∉ ([] : List AlertId) ∧
     (⟨dev95.id, MetricType.RAM, 90, 3⟩ : AlertId) ∉ ([] : List AlertId)) ∧
    (((∃ a ∈ evaluateDevice 90 90 3 [] 7 dev95, a.metricType = MetricType.CPU) ↔
       ∀ m ∈ dev95.metrics.drop (dev95.metrics.length - pointsNeeded 3), (90:ℚ) < m.cpu) ∧
     ((∃ a ∈ evaluateDevice 90 90 3 [] 7 dev95, a.metricType = MetricType.RAM) ↔
       ∀ m ∈ dev95.metrics.drop (dev95.metrics.length - pointsNeeded 3), (90:ℚ) < m.ram) ∧
     (∃ lm, dev95.metrics.getLast? = some lm ∧
       ∀ a ∈ evaluateDevice 90 90 3 [] 7 dev95,
         a.value = if a.metricType = MetricType.CPU then lm.cpu else lm.ram)) := by
  have h1 : pointsNeeded 3 ≤ dev95.metrics.length := by
    rw [pointsNeeded_three]
    decide
  exact ⟨⟨h1, by decide, by decide⟩,
    evaluateDevice_emits_iff 90 90 3 7 [] dev95 h1 (by decide) (by decide)⟩

/-- Claim C5: the window size in samples is `ceil(sustainSeconds / 3)` with
a minimum of 1 (stated over ℤ against the embedded `max 1 ∘ toNat ∘ ceil`),
and a device whose history is shorter than `pointsNeeded` contributes no
condition to the evaluator's output, regardless of its metric values:
per-device evaluation is empty and removing the device from a fleet leaves
the fleet evaluation unchanged. -/
theorem short_history_no_output (cpuT ramT dur now : ℚ) (dis : List AlertId) (d : Device)
    (ds1 ds2 : List Device)
    (h : d.metrics.length < pointsNeeded dur) :
    (pointsNeeded dur : ℤ) = max 1 ⌈dur / 3⌉ ∧
    evaluateDevice cpuT ramT dur dis now d = [] ∧
    evaluate cpuT ramT dur dis now (ds1 ++ d :: ds2) =
      evaluate cpuT ramT dur dis now (ds1 ++ ds2) := by
  have hempty : evaluateDevice cpuT ramT dur dis now d = [] := by
    simp only [evaluateDevice, if_pos h]
  refine ⟨?_, hempty, ?_⟩
  · show ((max 1 (Int.toNat ⌈dur / 3⌉) : ℕ) : ℤ) = max 1 ⌈dur / 3⌉
    omega
  · simp [evaluate, hempty]

theorem short_history_no_output_witness :
    dev95.metrics.length < pointsNeeded 60 ∧
    ((pointsNeeded 60 : ℤ) = max 1 ⌈(60 : ℚ) / 3⌉ ∧
     evaluateDevice 90 90 60 [] 7 dev95 = [] ∧
     evaluate 90 90 60 [] 7 ([] ++ dev95 :: [dev95]) = evaluate 90 90 60 [] 7 ([] ++ [dev95])) := by
  have h60 : pointsNeeded 60 = 20 := by
    norm_num [pointsNeeded]
    decide
  have h : dev95.metrics.length < pointsNeeded 60 := by
    rw [h60]
    decide
  exact ⟨h, short_history_no_output 90 90 60 7 [] dev95 [] [dev95] h⟩

/-- Claim C2: the condition key is exactly the tuple (deviceId, metric,
threshold, duration): with the device and metric fixed, two keys are equal
precisely when both the threshold and the duration agree (so identical
qualifying evaluations produce identical keys, and changing either value by
any amount produces a different key); and a dismissal set whose entries all
carry a different threshold or duration does not suppress the qualifying
condition, which is still emitted with its own key. -/
theorem alertId_stability (cpuT ramT dur tOther duOther now : ℚ) (dis : List AlertId) (d : Device)
    (hne : tOther ≠ cpuT ∨ duOther ≠ dur)
    (hdis : ∀ k ∈ dis, k = (⟨d.id, MetricType.CPU, tOther, duOther⟩ : AlertId))
    (hlen : pointsNeeded dur ≤ d.metrics.length)
    (hq : ∀ m ∈ d.metrics.drop (d.metrics.length - pointsNeeded dur), cpuT < m.cpu) :
    (∀ (i : String) (mt : MetricType) (a b c e : ℚ),
      AlertId.mk i mt a b = AlertId.mk i mt c e ↔ (a = c ∧ b = e)) ∧
    ∃ a ∈ evaluateDevice cpuT ramT dur dis now d,
      a.id = (⟨d.id, MetricType.CPU, cpuT, dur⟩ : AlertId) := by
  have hnotmem : (⟨d.id, MetricType.CPU, cpuT, dur⟩ : AlertId) ∉ dis := by
    intro hmem
    have hk := hdis _ hmem
    rw [AlertId.mk.injEq] at hk
    rcases hne with hne | hne
    · exact hne hk.2.2.1.symm
    · exact hne hk.2.2.2.symm
  have hall : (d.metrics.drop (d.metrics.length - pointsNeeded dur)).all
      (fun m => decide (cpuT < m.cpu)) = true :=
    List.all_eq_true.mpr fun m hm => decide_eq_true (hq m hm)
  refine ⟨fun i mt a b c e => by simp [AlertId.mk.injEq], ?_⟩
  rw [evaluateDevice_of_enough cpuT ramT dur dis now d hlen]
  simp [hall, hnotmem]

theorem alertId_stability_witness :
    (((80 : ℚ) ≠ 90 ∨ (3 : ℚ) ≠ 3) ∧
     (∀ k ∈ [(⟨dev95.id, MetricType.CPU, 80, 3⟩ : AlertId)],
        k = (⟨dev95.id, MetricType.CPU, 80, 3⟩ : AlertId)) ∧
     pointsNeeded 3 ≤ dev95.metrics.length ∧
     (∀ m ∈ dev95.metrics.drop (dev95.metrics.length - pointsNeeded 3), (90:ℚ) < m.cpu)) ∧
    ((∀ (i : String) (mt : MetricType) (a b c e : ℚ),
       AlertId.mk i mt a b = AlertId.mk i mt c e ↔ (a = c ∧ b = e)) ∧
     ∃ a ∈ evaluateDevice 90 90 3 [(⟨dev95.id, MetricType.CPU, 80, 3⟩ : AlertId)] 7 dev95,
       a.id = (⟨dev95.id, MetricType.CPU, 90, 3⟩ : AlertId)) := by
  have hne : (80 : ℚ) ≠ 90 ∨ (3 : ℚ) ≠ 3 := Or.inl (by decide)
  have hdis : ∀ k ∈ [(⟨dev95.id, MetricType.CPU, 80, 3⟩ : AlertId)],
      k = (⟨dev95.id, MetricType.CPU, 80, 3⟩ : AlertId) := by
    simp
  have hlen : pointsNeeded 3 ≤ dev95.metrics.length := by
    rw [pointsNeeded_three]
    decide
  have hq : ∀ m ∈ dev95.metrics.drop (dev95.metrics.length - pointsNeeded 3), (90:ℚ) < m.cpu := by
    rw [pointsNeeded_three]
    decide
  exact ⟨⟨hne, hdis, hlen, hq⟩,
    alertId_stability 90 90 3 80 3 7 [(⟨dev95.id, MetricType.CPU, 80, 3⟩ : AlertId)] dev95
      hne hdis hlen hq⟩

/-- Every alert the evaluator emits for one device passed its dismissal
check: its id is not in the dismissal set. -/
theorem evaluateDevice_not_dismissed (cpuT ramT dur now : ℚ) (dis : List AlertId) (d : Device) :
    ∀ a ∈ evaluateDevice cpuT ramT dur dis now d, a.id ∉ dis := by
  intro a ha
  by_cases h : d.metrics.length < pointsNeeded dur
  · simp [evaluateDevice, if_pos h] at ha
  · rw [evaluateDevice_of_enough cpuT ramT dur dis now d (not_lt.mp h)] at ha
    rcases List.mem_append.mp ha with ha | ha <;> split_ifs at ha with h1 h2 <;> simp_all

/-- Every alert the evaluator emits for a fleet has an undismissed id. -/
theorem evaluate_not_dismissed (cpuT ramT dur now : ℚ) (dis : List AlertId) (devices : List Device) :
    ∀ a ∈ evaluate cpuT ramT dur dis now devices, a.id ∉ dis := by
  intro a ha
  obtain ⟨d, _, hd⟩ := List.mem_flatMap.mp ha
  exact evaluateDevice_not_dismissed cpuT ramT dur now dis d a hd

/-- Membership in a reconcile result comes from the old set or the new
evaluation. -/
theorem mem_reconcile (prev newAlerts : List Alert) (a : Alert) :
    a ∈ reconcile prev newAlerts → a ∈ prev ∨ a ∈ newAlerts := by
  intro ha
  rcases List.mem_append.mp ha with ha | ha
  · exact Or.inl ha
  · exact Or.inr (List.mem_filter.mp ha).1

/-- Ticks never change the dismissal set. -/
theorem ticksRun_dismissed (cpuT ramT dur : ℚ) (seq : List (List Device × ℚ)) (st : AlertState) :
    (ticksRun cpuT ramT dur seq st).dismissedAlertIds = st.dismissedAlertIds := by
  induction seq generalizing st with
  | nil => rfl
  | cons p rest ih =>
      obtain ⟨ds, t⟩ := p
      exact ih (tick cpuT ramT dur ds t st)

/-- If a key is dismissed and absent from the active set, any sequence of
ticks keeps it out of the active set. -/
theorem ticksRun_excludes (cpuT ramT dur : ℚ) (K : AlertId) (seq : List (List Device × ℚ))
    (st : AlertState) (hK : K ∈ st.dismissedAlertIds)
    (hA : ∀ a ∈ st.activeAlerts, a.id ≠ K) :
    ∀ a ∈ (ticksRun cpuT ramT dur seq st).activeAlerts, a.id ≠ K := by
  induction seq generalizing st with
  | nil => exact hA
  | cons p rest ih =>
      obtain ⟨ds, t⟩ := p
      refine ih (tick cpuT ramT dur ds t st) hK ?_
      intro a ha
      rcases mem_reconcile _ _ a ha with ha | ha
      · exact hA a ha
      · intro hid
        exact evaluate_not_dismissed cpuT ramT dur t st.dismissedAlertIds ds a ha (hid ▸ hK)

/-- Claim C3: dismissing a key `K` removes every active alert with that key
immediately and adds `K` to the dismissal set, changing nothing else in
either structure; afterwards, under the same threshold and duration
configuration, no tick sequence can ever bring an alert or evaluator
condition with key `K` back, whatever the device metrics do. -/
theorem dismiss_durability (cpuT ramT dur : ℚ) (st : AlertState) (K : AlertId)
    (seq : List (List Device × ℚ)) :
    (∀ a, a ∈ (handleDismissAlert st K).activeAlerts ↔ (a ∈ st.activeAlerts ∧ a.id ≠ K)) ∧
    (∀ k, k ∈ (handleDismissAlert st K).dismissedAlertIds ↔
      (k ∈ st.dismissedAlertIds ∨ k = K)) ∧
    (ticksRun cpuT ramT dur seq (handleDismissAlert st K)).dismissedAlertIds =
      (handleDismissAlert st K).dismissedAlertIds ∧
    (∀ a ∈ (ticksRun cpuT ramT dur seq (handleDismissAlert st K)).activeAlerts, a.id ≠ K) ∧
    (∀ (devs : List Device) (t : ℚ),
      ∀ a ∈ evaluate cpuT ramT dur (handleDismissAlert st K).dismissedAlertIds t devs,
        a.id ≠ K) := by
  have hK : K ∈ (handleDismissAlert st K).dismissedAlertIds := List.mem_cons_self K _
  have hA : ∀ a ∈ (handleDismissAlert st K).activeAlerts, a.id ≠ K := by
    intro a ha
    exact of_decide_eq_true (List.mem_filter.mp ha).2
  refine ⟨?_, ?_, ticksRun_dismissed cpuT ramT dur seq _, ?_, ?_⟩
  · intro a
    constructor
    · intro ha
      exact ⟨(List.mem_filter.mp ha).1, of_decide_eq_true (List.mem_filter.mp ha).2⟩
    · intro ⟨ha, hid⟩
      exact List.mem_filter.mpr ⟨ha, decide_eq_true hid⟩
  · intro k
    simp [handleDismissAlert, or_comm]
  · exact ticksRun_excludes cpuT ramT dur K seq _ hK hA
  · intro devs t a ha hid
    exact evaluate_not_dismissed cpuT ramT dur t _ devs a ha (hid ▸ hK)

/-- Concrete alert instances for witnesses. -/
def alertA : Alert := ⟨⟨"dev-0", MetricType.CPU, 90, 60⟩, "dev-0", "US-WEST-SRV-01", MetricType.CPU, 95, 0⟩

/-- Same key as `alertA` but a fresher observation. -/
def alertA2 : Alert := ⟨⟨"dev-0", MetricType.CPU, 90, 60⟩, "dev-0", "US-WEST-SRV-01", MetricType.CPU, 97, 3⟩

/-- A distinct key from `alertA`. -/
def alertB : Alert := ⟨⟨"dev-0", MetricType.RAM, 90, 60⟩, "dev-0", "US-WEST-SRV-01", MetricType.RAM, 99, 3⟩

theorem dismiss_durability_witness :
    (alertA ∈ (handleDismissAlert ⟨[alertA], []⟩ alertA.id).activeAlerts ↔
      (alertA ∈ [alertA] ∧ alertA.id ≠ alertA.id)) ∧
    (alertA.id ∈ (handleDismissAlert ⟨[alertA], []⟩ alertA.id).dismissedAlertIds ↔
      (alertA.id ∈ ([] : List AlertId) ∨ alertA.id = alertA.id)) ∧
    (ticksRun 90 90 3 [([dev95], 1)]
        (handleDismissAlert ⟨[alertA], []⟩ alertA.id)).dismissedAlertIds =
      (handleDismissAlert ⟨[alertA], []⟩ alertA.id).dismissedAlertIds := by
  have h := dismiss_durability 90 90 3 ⟨[alertA], []⟩ alertA.id [([dev95], 1)]
  exact ⟨h.1 alertA, h.2.1 alertA.id, h.2.2.1⟩

/-- Claim C4: a reconcile step returns the input active set unchanged (as
an exact prefix, preserving every alert's key, observed value and raise
timestamp) followed only by appended alerts whose keys were not already
present; reconcile never removes or mutates an existing alert, regardless
of whether its condition still qualifies. -/
theorem reconcile_frame (prev newAlerts : List Alert) :
    ∃ appended,
      reconcile prev newAlerts = prev ++ appended ∧
      ∀ a ∈ appended, a ∈ newAlerts ∧ ∀ b ∈ prev, b.id ≠ a.id := by
  refine ⟨_, rfl, ?_⟩
  intro a ha
  rw [List.mem_filter] at ha
  refine ⟨ha.1, ?_⟩
  intro b hb hid
  exact of_decide_eq_true ha.2 (hid ▸ List.mem_map_of_mem (fun x => x.id) hb)

theorem reconcile_frame_witness :
    ∃ appended,
      reconcile [alertA] [alertA2, alertB] = [alertA] ++ appended ∧
      ∀ a ∈ appended, a ∈ [alertA2, alertB] ∧ ∀ b ∈ [alertA], b.id ≠ a.id :=
  reconcile_frame [alertA] [alertA2, alertB]

/-!  Fleet lemmas.  -/

theorem genChain_length (now : ℚ) (g : ℕ → GenRand) :
    ∀ (k j : ℕ) (prev : Option MetricPoint), (genChain now g j k prev).length = k := by
  intro k
  induction k with
  | zero => intro j prev; rfl
  | succ k ih =>
      intro j prev
      simp [genChain, ih]

theorem createDevice_metrics_length (now : ℚ) (i : ℕ) (r : DevInitRand) :
    (createDevice now i r).metrics.length = 20 :=
  genChain_length now r.gens 20 0 none

theorem updateDevice_metrics_length (now : ℚ) (r : DevRand) (d : Device)
    (h : 1 ≤ d.metrics.length) :
    (updateDevice now r d).metrics.length = d.metrics.length := by
  simp only [updateDevice, List.length_append, List.length_drop, List.length_singleton]
  omega

theorem mem_updateDevicesFrom (now : ℚ) (R : ℕ → DevRand) :
    ∀ (ds : List Device) (j : ℕ), ∀ d ∈ updateDevicesFrom now R j ds,
      ∃ i d0, d0 ∈ ds ∧ d = updateDevice now (R i) d0 := by
  intro ds
  induction ds with
  | nil => intro j d hd; simp [updateDevicesFrom] at hd
  | cons d0 rest ih =>
      intro j d hd
      rcases List.mem_cons.mp hd with hd | hd
      · exact ⟨j, d0, List.mem_cons_self d0 rest, hd⟩
      · obtain ⟨i, d1, hd1, he⟩ := ih (j + 1) d hd
        exact ⟨i, d1, List.mem_cons_of_mem d0 hd1, he⟩

theorem advanceN_metrics_length (t0 : ℚ) (R : ℕ → DevInitRand) (count : ℕ) (T : ℕ → ℚ)
    (O : ℕ → ℕ → DevRand) (n : ℕ) :
    ∀ d ∈ advanceN T O n (createInitialDevices t0 R count), d.metrics.length = 20 := by
  induction n with
  | zero =>
      intro d hd
      obtain ⟨i, _, he⟩ := List.mem_map.mp hd
      exact he ▸ createDevice_metrics_length t0 i (R i)
  | succ n ih =>
      intro d hd
      obtain ⟨i, d0, hd0, he⟩ := mem_updateDevicesFrom (T n) (O n) _ 0 d hd
      have h0 := ih d0 hd0
      rw [he, updateDevice_metrics_length (T n) (O n i) d0 (by omega)]
      exact h0

/-- Claim C7: starting from any `createInitialDevices` fleet and after any
number of `advance` ticks, every device's history has length exactly 20 —
equivalently `min(ticks + 20, 20)`, since the fleet is backfilled to the
capacity `W = 20` — and each further advance produces exactly the old
history minus its oldest sample plus one newly generated sample appended at
the end, preserving the length (the history is always at capacity, and the
oldest sample is evicted on every tick of such a fleet). -/
theorem history_bound (t0 : ℚ) (R : ℕ → DevInitRand) (count : ℕ) (T : ℕ → ℚ)
    (O : ℕ → ℕ → DevRand) (n : ℕ) :
    ∀ d ∈ advanceN T O n (createInitialDevices t0 R count),
      d.metrics.length = 20 ∧
      d.metrics.length = min (n + 20) 20 ∧
      ∀ (t : ℚ) (r : DevRand),
        (updateDevice t r d).metrics =
          d.metrics.drop 1 ++ [generateMetricPoint t r.gen d.metrics.getLast?] ∧
        (updateDevice t r d).metrics.length = d.metrics.length := by
  intro d hd
  have h20 := advanceN_metrics_length t0 R count T O n d hd
  refine ⟨h20, by omega, ?_⟩
  intro t r
  exact ⟨rfl, updateDevice_metrics_length t r d (by omega)⟩

/-- Constant generator draws used by concrete witnesses. -/
def gHalf : GenRand := ⟨1/2, 1/2, 1/2, 1/2, 1/2, 1/2, 1/2, 1/2⟩

/-- Constant device-creation draws used by concrete witnesses. -/
def rInit : DevInitRand := ⟨0, 0, 0, 0, 0, fun _ => gHalf⟩

/-- Constant advance draws used by concrete witnesses. -/
def drHalf : DevRand := ⟨1/2, gHalf⟩

theorem history_bound_witness :
    createDevice 0 0 rInit ∈
      advanceN (fun _ => 0) (fun _ _ => drHalf) 0 (createInitialDevices 0 (fun _ => rInit) 1) ∧
    ((createDevice 0 0 rInit).metrics.length = 20 ∧
     (createDevice 0 0 rInit).metrics.length = min (0 + 20) 20 ∧
     ∀ (t : ℚ) (r : DevRand),
       (updateDevice t r (createDevice 0 0 rInit)).metrics =
         (createDevice 0 0 rInit).metrics.drop 1 ++
           [generateMetricPoint t r.gen (createDevice 0 0 rInit).metrics.getLast?] ∧
       (updateDevice t r (createDevice 0 0 rInit)).metrics.length =
         (createDevice 0 0 rInit).metrics.length) := by
  have hmem : createDevice 0 0 rInit ∈
      advanceN (fun _ => 0) (fun _ _ => drHalf) 0 (createInitialDevices 0 (fun _ => rInit) 1) :=
    List.Mem.head _
  exact ⟨hmem,
    history_bound 0 (fun _ => rInit) 1 (fun _ => 0) (fun _ _ => drHalf) 0 _ hmem⟩

theorem updateDevicesFrom_get? (now : ℚ) (R : ℕ → DevRand) :
    ∀ (ds : List Device) (j i : ℕ),
      (updateDevicesFrom now R j ds).get? i =
        (ds.get? i).map fun d => updateDevice now (R (j + i)) d := by
  intro ds
  induction ds with
  | nil => intro j i; rfl
  | cons d0 rest ih =>
      intro j i
      cases i with
      | zero => rfl
      | succ i =>
          show (updateDevicesFrom now R (j + 1) rest).get? i = _
          rw [ih (j + 1) i]
          have : j + 1 + i = j + (i + 1) := by omega
          rw [this]
          rfl

/-- Claim C10: `advance` preserves the number and order of devices in the
fleet — position `i` of the output is exactly `updateDevice` applied to
position `i` of the input — and preserves every device's identity and
static fields (`id`, `name`, `type`, `location`, `ip`); only `status`,
`metrics` and `lastUpdate` can differ. -/
theorem advance_frame (now : ℚ) (R : ℕ → DevRand) (ds : List Device) :
    (updateDevices now R ds).length = ds.length ∧
    (∀ i, (updateDevices now R ds).get? i = (ds.get? i).map fun d => updateDevice now (R i) d) ∧
    (∀ (t : ℚ) (r : DevRand) (d : Device),
      (updateDevice t r d).id = d.id ∧
      (updateDevice t r d).name = d.name ∧
      (updateDevice t r d).type = d.type ∧
      (updateDevice t r d).location = d.location ∧
      (updateDevice t r d).ip = d.ip ∧
      (updateDevice t r d).status = rollStatus r.roll d.status ∧
      (updateDevice t r d).lastUpdate = t) := by
  have hlen : ∀ (l : List Device) (j : ℕ), (updateDevicesFrom now R j l).length = l.length := by
    intro l
    induction l with
    | nil => intro j; rfl
    | cons d0 rest ih =>
        intro j
        show (updateDevicesFrom now R (j + 1) rest).length + 1 = rest.length + 1
        rw [ih (j + 1)]
  refine ⟨hlen ds 0, ?_, ?_⟩
  · intro i
    have h := updateDevicesFrom_get? now R ds 0 i
    rw [Nat.zero_add] at h
    exact h
  · intro t r d
    exact ⟨rfl, rfl, rfl, rfl, rfl, rfl, rfl⟩

/-!  The status roll (Claim C8).  -/

/-- Claim C8 (refuting theorem, documenting the dead branches): the source
tests `roll > 0.98` before `roll > 0.995` and `roll > 0.999`, so any roll
that would select ERROR or OFFLINE already selected WARNING: the roll sets
that yield ERROR and OFFLINE are empty, and a device that is not already in
one of those states can never enter it through the status roll. -/
theorem rollStatus_dead_branches (roll : ℚ) (s : DeviceStatus)
    (hs : s ≠ DeviceStatus.ERROR ∧ s ≠ DeviceStatus.OFFLINE) :
    rollStatus roll s ≠ DeviceStatus.ERROR ∧ rollStatus roll s ≠ DeviceStatus.OFFLINE := by
  unfold rollStatus
  split_ifs with h1 h2 h3 h4
  · exact ⟨by decide, by decide⟩
  · exact absurd (lt_trans (by norm_num) h2) h1
  · exact absurd (lt_trans (by norm_num) h3) h1
  · exact ⟨by decide, by decide⟩
  · exact hs

theorem rollStatus_dead_branches_witness :
    ((DeviceStatus.ONLINE ≠ DeviceStatus.ERROR ∧ DeviceStatus.ONLINE ≠ DeviceStatus.OFFLINE) ∧
     (rollStatus (996/1000) DeviceStatus.ONLINE ≠ DeviceStatus.ERROR ∧
      rollStatus (996/1000) DeviceStatus.ONLINE ≠ DeviceStatus.OFFLINE)) ∧
    rollStatus (996/1000) DeviceStatus.ONLINE = DeviceStatus.WARNING := by
  refine ⟨⟨⟨by decide, by decide⟩,
    rollStatus_dead_branches (996/1000) DeviceStatus.ONLINE ⟨by decide, by decide⟩⟩, ?_⟩
  rw [rollStatus, if_pos (by norm_num : (98/100 : ℚ) < 996/1000)]

/-!  Threshold configuration handling (Claim C9).  -/

/-- Claim C9 counterexample: an out-of-range value is not rejected — the
handler stores it (the prior configuration is not retained), and a negative
duration is silently used, its window clamped to one sample. -/
theorem config_not_rejected :
    (setAlertDuration ⟨90, 90, 60⟩ (-5)).alertDuration = -5 ∧
    (setAlertDuration ⟨90, 90, 60⟩ (-5)).alertDuration ≠ 60 ∧
    (setCpuThreshold ⟨90, 90, 60⟩ 150).cpuThreshold = 150 ∧
    pointsNeeded (-5) = 1 := by
  refine ⟨rfl, by decide, rfl, ?_⟩
  have h1 : (-5 : ℚ) / 3 ≤ ((0 : ℤ) : ℚ) := by norm_num
  have h2 : Int.toNat ⌈(-5 : ℚ) / 3⌉ = 0 := Int.toNat_eq_zero.mpr (Int.ceil_le.mpr h1)
  show max 1 (Int.toNat ⌈(-5 : ℚ) / 3⌉) = 1
  omega

/-- Claim C9 amended: the threshold and duration input handlers apply the
parsed value directly, with no validation and no configuration error — an
out-of-range value replaces the prior one (each setter touches only its own
field) — and a non-positive `sustainSeconds` is silently clamped at window
level: `pointsNeeded` evaluates to the minimum window of 1 sample. -/
theorem config_applied_not_validated (c : ThresholdConfig) (v dur : ℚ) (hdur : dur ≤ 0) :
    (setCpuThreshold c v).cpuThreshold = v ∧
    (setCpuThreshold c v).ramThreshold = c.ramThreshold ∧
    (setCpuThreshold c v).alertDuration = c.alertDuration ∧
    (setRamThreshold c v).ramThreshold = v ∧
    (setRamThreshold c v).cpuThreshold = c.cpuThreshold ∧
    (setAlertDuration c v).alertDuration = v ∧
    (setAlertDuration c v).cpuThreshold = c.cpuThreshold ∧
    pointsNeeded dur = 1 := by
  refine ⟨rfl, rfl, rfl, rfl, rfl, rfl, rfl, ?_⟩
  have h1 : dur / 3 ≤ ((0 : ℤ) : ℚ) := by
    push_cast
    exact div_nonpos_iff.mpr (Or.inr ⟨hdur, by norm_num⟩)
  have h2 : Int.toNat ⌈dur / 3⌉ = 0 := Int.toNat_eq_zero.mpr (Int.ceil_le.mpr h1)
  show max 1 (Int.toNat ⌈dur / 3⌉) = 1
  omega

theorem config_applied_not_validated_witness :
    ((-5 : ℚ) ≤ 0) ∧
    ((setCpuThreshold ⟨90, 90, 60⟩ 150).cpuThreshold = 150 ∧
     (setCpuThreshold ⟨90, 90, 60⟩ 150).ramThreshold = (⟨90, 90, 60⟩ : ThresholdConfig).ramThreshold ∧
     (setCpuThreshold ⟨90, 90, 60⟩ 150).alertDuration = (⟨90, 90, 60⟩ : ThresholdConfig).alertDuration ∧
     (setRamThreshold ⟨90, 90, 60⟩ 150).ramThreshold = 150 ∧
     (setRamThreshold ⟨90, 90, 60⟩ 150).cpuThreshold = (⟨90, 90, 60⟩ : ThresholdConfig).cpuThreshold ∧
     (setAlertDuration ⟨90, 90, 60⟩ 150).alertDuration = 150 ∧
     (setAlertDuration ⟨90, 90, 60⟩ 150).cpuThreshold = (⟨90, 90, 60⟩ : ThresholdConfig).cpuThreshold ∧
     pointsNeeded (-5) = 1) :=
  ⟨by norm_num, config_applied_not_validated ⟨90, 90, 60⟩ 150 (-5) (by norm_num)⟩

end DITMonitor
